import Mathlib

/-!
Shallow embedding of the credential-pool / persistence / streaming-translation
core of the cursor-api gateway (Rust sources under `src/`), together with
theorems settling the frozen specification claims.

Conventions of the embedding:
* SQLite rows are Lean structures; the store is a pair of row lists.
* Timestamps (`chrono::DateTime<Local>`) are integer seconds.
* Fallible database operations return the (possibly rolled-back) store
  together with an `Except DbError` result, mirroring rusqlite's `Result`:
  a returned `.error` leaves the store exactly as it was (transaction
  rollback / validation before any write).
* `rusqlite` parameter binding is modelled explicitly: a statement's
  placeholder list and the bound value list are both transcribed from the
  source, and binding fails with `invalidParameterCount` when their lengths
  differ, exactly as `rusqlite::Statement::execute` does.
-/

namespace CursorApi

/-- Log row status, from `app/model/db.rs` (`LogStatus`, stored as 0..3). -/
inductive LogStatus
  | pending
  | success
  | failed
  | deleted
deriving DecidableEq, Repr

/-- Integer encoding used by `ToSql for LogStatus`. -/
def LogStatus.toInt : LogStatus → Int
  | .pending => 0
  | .success => 1
  | .failed => 2
  | .deleted => 3

/-- Credential status, from `app/model/db.rs` (`TokenStatus`, stored as 0..3). -/
inductive TokenStatus
  | pending
  | active
  | expired
  | deleted
deriving DecidableEq, Repr

/-- Integer encoding used by `ToSql for TokenStatus`. -/
def TokenStatus.toInt : TokenStatus → Int
  | .pending => 0
  | .active => 1
  | .expired => 2
  | .deleted => 3

/-- Account-usage payload, from `common/models/usage.rs` (`UserUsageInfo`). -/
structure UserUsageInfo where
  fast_requests : Nat
  max_fast_requests : Nat
  mtype : String
  trial_days : Nat
deriving DecidableEq, Repr

/-- Credential row, from `app/model/db.rs` (`TokenInfo`); the `tokens` table
of `app/db/tokens.rs` stores exactly these columns. -/
structure TokenInfo where
  id : Int
  create_at : Int
  token : String
  checksum : String
  «alias» : Option String
  status : TokenStatus
  pengding_at : Int
  user_id : Int
  is_public : Bool
  usage : Option UserUsageInfo
deriving DecidableEq, Repr

/-- Row of the `logs` table created by `Database::init_logs_table` in
`app/db/logs.rs` (the `token_id` foreign key kept as a plain integer). -/
structure LogRow where
  id : Int
  timestamp : Int
  token_id : Int
  prompt : Option String
  model : String
  stream : Bool
  status : LogStatus
  error : Option String
deriving DecidableEq, Repr

/-- The relational store: the `tokens` and `logs` tables plus their
AUTOINCREMENT counters. -/
structure Store where
  tokens : List TokenInfo
  logs : List LogRow
  nextTokenId : Int
  nextLogId : Int
deriving DecidableEq, Repr

/-- Typed rusqlite-style errors as they surface to the store's callers. -/
inductive DbError
  | invalidParameterName (msg : String)
  | invalidParameterCount (got expected : Nat)
  | invalidColumnIndex (idx : Nat)
  | invalidColumnType (idx : Nat)
  | queryReturnedNoRows
deriving DecidableEq, Repr

/-- Length ceiling on log prompts (`app/db/logs.rs`). -/
def MAX_PROMPT_LENGTH : Nat := 100000

/-- Length ceiling on log model names (`app/db/logs.rs`). -/
def MAX_MODEL_LENGTH : Nat := 100

/-- Length ceiling on log error strings (`app/db/logs.rs`). -/
def MAX_ERROR_LENGTH : Nat := 1000

/-- Length ceiling on credential secrets (`app/db/tokens.rs`). -/
def MAX_TOKEN_LENGTH : Nat := 1000

/-- Length ceiling on credential checksums (`app/db/tokens.rs`). -/
def MAX_CHECKSUM_LENGTH : Nat := 200

/-- Length ceiling on credential aliases (`app/db/tokens.rs`). -/
def MAX_ALIAS_LENGTH : Nat := 100

/-- Hard cap on list queries (`MAX_QUERY_LIMIT` in both db modules). -/
def MAX_QUERY_LIMIT : Nat := 1000

/-- Insert `x` into an already ascending (by `key`) list, keeping it
ascending; used to realize SQL `ORDER BY key ASC`. -/
def insertAscBy (key : α → Int) (x : α) : List α → List α
  | [] => [x]
  | y :: ys => if key x ≤ key y then x :: y :: ys else y :: insertAscBy key x ys

/-- Sort ascending by an integer key (insertion sort); realizes SQL
`ORDER BY key ASC` (stable, so equal keys keep their incoming order). -/
def sortAscBy (key : α → Int) : List α → List α
  | [] => []
  | x :: xs => insertAscBy key x (sortAscBy key xs)

/-- Sort descending by an integer key; realizes SQL `ORDER BY key DESC`. -/
def sortDescBy (key : α → Int) (l : List α) : List α :=
  sortAscBy (fun a => -(key a)) l

/-- The join `logs l JOIN tokens t ON l.token_id = t.id WHERE t.user_id = uid`
used by the log queries in `app/db/logs.rs`. -/
def userLogs (st : Store) (uid : Int) : List LogRow :=
  st.logs.filter (fun l =>
    st.tokens.any (fun t => t.id = l.token_id && t.user_id = uid))

/-- Embeds `Database::clean_user_logs` (`app/db/logs.rs` lines 211-248).
Inside one transaction it first runs the ranking query
`ROW_NUMBER() OVER (ORDER BY l.timestamp DESC)` keeping ids with `rn > ?2`
(the rows beyond the newest `limit`), and — only if that id set is
non-empty — runs the UPDATE whose subquery is
`ORDER BY l.timestamp ASC LIMIT -1 OFFSET ?3`, i.e. every row of the user
except the `limit` oldest, setting their status to `Deleted`. -/
def clean_user_logs (st : Store) (user_id : Int) (limit : Nat) : Store :=
  let ranked := sortDescBy (fun l => l.timestamp) (userLogs st user_id)
  let log_ids : List Int := (ranked.drop limit).map (fun l => l.id)
  if log_ids.isEmpty then st
  else
    let marked : List Int :=
      ((sortAscBy (fun l => l.timestamp) (userLogs st user_id)).drop limit).map
        (fun l => l.id)
    { st with
      logs := st.logs.map (fun l =>
        if l.id ∈ marked then { l with status := .deleted } else l) }

/-- SQLite storage classes as rusqlite sees them: INTEGER, TEXT, NULL
(booleans are stored as integers, `chrono` datetimes as text; a TEXT value
holding a well-formed RFC3339 datetime is distinguished as `timeText`,
carrying the instant it denotes). -/
inductive SqlValue
  | int (i : Int)
  | text (s : String)
  | timeText (t : Int)
  | null
deriving DecidableEq, Repr

/-- ToSql for `chrono::DateTime<Local>`: stored as datetime TEXT. -/
def timeToSql (t : Int) : SqlValue := .timeText t

/-- ToSql for `bool`: stored as INTEGER 0/1. -/
def boolToSql (b : Bool) : SqlValue := .int (if b then 1 else 0)

/-- ToSql for `Option<String>`: TEXT or NULL. -/
def optTextToSql : Option String → SqlValue
  | some s => .text s
  | none => .null

/-- ToSql for `UserUsageInfo` (`common/models/usage.rs`): the four fields
joined with commas into one TEXT value. -/
def usageEncode (u : UserUsageInfo) : String :=
  toString u.fast_requests ++ "," ++ toString u.max_fast_requests ++ ","
    ++ u.mtype ++ "," ++ toString u.trial_days

/-- ToSql for `Option<UserUsageInfo>`: encoded TEXT or NULL. -/
def usageToSql : Option UserUsageInfo → SqlValue
  | some u => .text (usageEncode u)
  | none => .null

/-- rusqlite `Row::get` at a column index: out-of-range indices fail. -/
def columnAt (row : List SqlValue) (i : Nat) : Except DbError SqlValue :=
  match row.get? i with
  | some v => .ok v
  | none => .error (.invalidColumnIndex i)

/-- FromSql for `i64`: requires an INTEGER value. -/
def getI64 (row : List SqlValue) (i : Nat) : Except DbError Int := do
  match ← columnAt row i with
  | .int v => .ok v
  | _ => .error (.invalidColumnType i)

/-- FromSql for `String`: requires a TEXT value. -/
def getText (row : List SqlValue) (i : Nat) : Except DbError String := do
  match ← columnAt row i with
  | .text s => .ok s
  | _ => .error (.invalidColumnType i)

/-- FromSql for `chrono::DateTime<Local>`: requires a TEXT value that
parses as a datetime; an INTEGER (or NULL, or non-datetime TEXT) column is
a type error. -/
def getTime (row : List SqlValue) (i : Nat) : Except DbError Int := do
  match ← columnAt row i with
  | .timeText t => .ok t
  | _ => .error (.invalidColumnType i)

/-- FromSql for `bool`: an INTEGER value, nonzero meaning true. -/
def getBool (row : List SqlValue) (i : Nat) : Except DbError Bool := do
  match ← columnAt row i with
  | .int v => .ok (v ≠ 0)
  | _ => .error (.invalidColumnType i)

/-- FromSql for `Option<String>`: NULL maps to `none`. -/
def getOptText (row : List SqlValue) (i : Nat) : Except DbError (Option String) := do
  match ← columnAt row i with
  | .null => .ok none
  | .text s => .ok (some s)
  | _ => .error (.invalidColumnType i)

/-- FromSql for `TokenStatus` (`app/model/db.rs`): INTEGER 0..3. -/
def getTokenStatus (row : List SqlValue) (i : Nat) : Except DbError TokenStatus := do
  match ← columnAt row i with
  | .int 0 => .ok .pending
  | .int 1 => .ok .active
  | .int 2 => .ok .expired
  | .int 3 => .ok .deleted
  | _ => .error (.invalidColumnType i)

/-- FromSql for `UserUsageInfo`: a TEXT value splitting on commas into
exactly four parts with numeric first, second and fourth parts. -/
def usageDecode (i : Nat) (s : String) : Except DbError UserUsageInfo :=
  match s.splitOn "," with
  | [a, b, c, d] =>
    match a.toNat?, b.toNat?, d.toNat? with
    | some fr, some mfr, some td =>
      .ok { fast_requests := fr, max_fast_requests := mfr, mtype := c, trial_days := td }
    | _, _, _ => .error (.invalidColumnType i)
  | _ => .error (.invalidColumnType i)

/-- FromSql for `Option<UserUsageInfo>`: NULL maps to `none`. -/
def getUsage (row : List SqlValue) (i : Nat) : Except DbError (Option UserUsageInfo) := do
  match ← columnAt row i with
  | .null => .ok none
  | .text s => (usageDecode i s).map some
  | _ => .error (.invalidColumnType i)

/-- Embeds `Database::row_to_token_info` (`app/db/tokens.rs` lines 291-304):
reads the ten columns `id, create_at, token, checksum, alias, status,
pengding_at, user_id, is_public, usage` at indices 0..9. -/
def row_to_token_info (row : List SqlValue) : Except DbError TokenInfo := do
  let id ← getI64 row 0
  let create_at ← getTime row 1
  let token ← getText row 2
  let checksum ← getText row 3
  let al ← getOptText row 4
  let status ← getTokenStatus row 5
  let pengding_at ← getTime row 6
  let user_id ← getI64 row 7
  let is_public ← getBool row 8
  let usage ← getUsage row 9
  .ok { id := id, create_at := create_at, token := token, checksum := checksum,
        «alias» := al, status := status, pengding_at := pengding_at,
        user_id := user_id, is_public := is_public, usage := usage }

/-- Column values produced for one row by the ten-column SELECT
`id, create_at, token, checksum, alias, status, pengding_at, user_id,
is_public, usage` used by most token queries in `app/db/tokens.rs`. -/
def selectColsFull (r : TokenInfo) : List SqlValue :=
  [ .int r.id, timeToSql r.create_at, .text r.token, .text r.checksum,
    optTextToSql r.alias, .int r.status.toInt, timeToSql r.pengding_at,
    .int r.user_id, boolToSql r.is_public, usageToSql r.usage ]

/-- Column values produced for one row by the SELECT of the
administrator-with-target branch of `get_token_by_alias_and_user`
(`app/db/tokens.rs` lines 220-225), whose column list is
`id, create_at, token, checksum, alias, status, user_id, is_public, usage` —
nine columns, `pengding_at` missing. -/
def selectColsAdminScoped (r : TokenInfo) : List SqlValue :=
  [ .int r.id, timeToSql r.create_at, .text r.token, .text r.checksum,
    optTextToSql r.alias, .int r.status.toInt,
    .int r.user_id, boolToSql r.is_public, usageToSql r.usage ]

/-- Placeholder column list of the INSERT statement of
`Database::insert_token` (`app/db/tokens.rs` lines 85-88): nine
placeholders `?1`..`?9`. -/
def insertTokenColumns : List String :=
  ["create_at", "token", "checksum", "alias", "status",
   "pengding_at", "user_id", "is_public", "usage"]

/-- Values bound by the `params![...]` list of `Database::insert_token`
(`app/db/tokens.rs` lines 89-98), in source order: `Local::now()`,
`token`, `checksum`, `alias`, `status`, `user_id`, `is_public`, `usage` —
eight values. -/
def insertTokenParams (now : Int) (t : TokenInfo) : List SqlValue :=
  [ timeToSql now, .text t.token, .text t.checksum, optTextToSql t.alias,
    .int t.status.toInt, .int t.user_id, boolToSql t.is_public,
    usageToSql t.usage ]

/-- Length validation on the optional `alias` field, shared by
`insert_token` and `update_token`. -/
def aliasTooLong : Option String → Bool
  | some a => decide (a.length > MAX_ALIAS_LENGTH)
  | none => false

/-- Decoding of a successfully bound insert-token row back into a
`TokenInfo`, positionally following `insertTokenColumns` (used only on the
branch where rusqlite's parameter-count check passed). -/
def decodeInsertedTokenRow (id : Int) (vals : List SqlValue) : Except DbError TokenInfo := do
  let create_at ← getTime vals 0
  let token ← getText vals 1
  let checksum ← getText vals 2
  let al ← getOptText vals 3
  let status ← getTokenStatus vals 4
  let pengding_at ← getTime vals 5
  let user_id ← getI64 vals 6
  let is_public ← getBool vals 7
  let usage ← getUsage vals 8
  .ok { id := id, create_at := create_at, token := token, checksum := checksum,
        «alias» := al, status := status, pengding_at := pengding_at,
        user_id := user_id, is_public := is_public, usage := usage }

/-- Embeds `Database::insert_token` (`app/db/tokens.rs` lines 64-103):
field-length validation, then a transaction executing the INSERT.
rusqlite's `Statement::execute` first checks that the number of bound
values equals the statement's placeholder count and fails with
`InvalidParameterCount` otherwise, rolling the transaction back; the
result pairs the (possibly unchanged) store with the outcome. -/
def insert_token (st : Store) (now : Int) (t : TokenInfo) : Store × Except DbError Int :=
  if t.token.length > MAX_TOKEN_LENGTH then
    (st, .error (.invalidParameterName "Token too long"))
  else if t.checksum.length > MAX_CHECKSUM_LENGTH then
    (st, .error (.invalidParameterName "Checksum too long"))
  else if aliasTooLong t.alias then
    (st, .error (.invalidParameterName "Alias too long"))
  else
    let vals := insertTokenParams now t
    if vals.length = insertTokenColumns.length then
      match decodeInsertedTokenRow st.nextTokenId vals with
      | .ok row =>
        ({ st with tokens := st.tokens ++ [row], nextTokenId := st.nextTokenId + 1 },
         .ok st.nextTokenId)
      | .error e => (st, .error e)
    else
      (st, .error (.invalidParameterCount vals.length insertTokenColumns.length))

/-- Embeds `Database::get_token_by_token` (`app/db/tokens.rs` lines
157-173): length validation, then a point lookup on the unique `token`
column, materialized through `row_to_token_info`; `.optional()` turns the
no-row case into `none`. -/
def get_token_by_token (st : Store) (token : String) : Except DbError (Option TokenInfo) :=
  if token.length > MAX_TOKEN_LENGTH then
    .error (.invalidParameterName "Token too long")
  else
    match st.tokens.find? (fun r => r.token == token) with
    | none => .ok none
    | some r => (row_to_token_info (selectColsFull r)).map some

/-- Embeds `Database::update_token_status` (`app/db/tokens.rs` lines
174-188): one transaction setting `status` on the matching row and — when
the new status is `Pending` — additionally setting
`pengding_at = Local::now() + Duration::minutes(1)`, modelled as
`now + 60` seconds. -/
def update_token_status (st : Store) (id : Int) (status : TokenStatus) (now : Int) : Store :=
  let st1 := { st with tokens := st.tokens.map (fun r =>
    if r.id = id then { r with status := status } else r) }
  if status = TokenStatus.pending then
    { st1 with tokens := st1.tokens.map (fun r =>
      if r.id = id then { r with pengding_at := now + 60 } else r) }
  else st1

/-- Embeds `Database::get_available_tokens_by_user_id` (`app/db/tokens.rs`
lines 125-145): `WHERE status = 1 AND datetime(now) >= pengding_at AND
user_id IS ?1 LIMIT 1000` (status 1 is `Active`; `user_id IS NULL` matches
no row since the column is NOT NULL). -/
def get_available_tokens_by_user_id (st : Store) (user_id : Option Int) (now : Int) :
    List TokenInfo :=
  (st.tokens.filter (fun r =>
    r.status == TokenStatus.active && decide (r.pengding_at ≤ now) &&
      (match user_id with
       | some uid => r.user_id == uid
       | none => false))).take MAX_QUERY_LIMIT

/-- Embeds `Database::delete_expired_tokens` (`app/db/tokens.rs` lines
189-208): one transaction deleting first the logs whose credential has
status `Expired`, then the credentials with status `Expired`. -/
def delete_expired_tokens (st : Store) : Store :=
  let expiredIds : List Int :=
    (st.tokens.filter (fun t => t.status == TokenStatus.expired)).map (fun t => t.id)
  { st with
    logs := st.logs.filter (fun l => !decide (l.token_id ∈ expiredIds)),
    tokens := st.tokens.filter (fun t => !(t.status == TokenStatus.expired)) }

/-- Embeds `Database::update_token` (`app/db/tokens.rs` lines 260-290):
checksum/alias length validation, then one transaction running
`UPDATE tokens SET checksum = ?1, alias = ?2, is_public = ?3 WHERE id = ?4`. -/
def update_token (st : Store) (t : TokenInfo) : Store × Except DbError Unit :=
  if t.checksum.length > MAX_CHECKSUM_LENGTH then
    (st, .error (.invalidParameterName "Checksum too long"))
  else if aliasTooLong t.alias then
    (st, .error (.invalidParameterName "Alias too long"))
  else
    ({ st with tokens := st.tokens.map (fun r =>
        if r.id = t.id then
          { r with checksum := t.checksum, «alias» := t.alias, is_public := t.is_public }
        else r) },
     .ok ())

/-- Embeds `Database::get_token_by_alias_and_user` (`app/db/tokens.rs`
lines 209-259). An administrator (`current_user_id == 0`) with a target
owner uses the nine-column SELECT (`selectColsAdminScoped`); the
administrator without a target and the ordinary user (restricted to
`user_id = current_user_id`) use the ten-column SELECT; every branch
filters `alias = ?1 AND status IN (Active, Pending)` and materializes the
first row through `row_to_token_info`, `.optional()` mapping the no-row
case to `none`. -/
def get_token_by_alias_and_user (st : Store) (al : String) (current_user_id : Int)
    (target_user_id : Option Int) : Except DbError (Option TokenInfo) :=
  let statusOk := fun (r : TokenInfo) =>
    r.status == TokenStatus.active || r.status == TokenStatus.pending
  if current_user_id = 0 then
    match target_user_id with
    | some uid =>
      match (st.tokens.filter (fun r =>
          r.alias == some al && statusOk r && r.user_id == uid)).head? with
      | none => .ok none
      | some r => (row_to_token_info (selectColsAdminScoped r)).map some
    | none =>
      match (st.tokens.filter (fun r =>
          r.alias == some al && statusOk r)).head? with
      | none => .ok none
      | some r => (row_to_token_info (selectColsFull r)).map some
  else
    match (st.tokens.filter (fun r =>
        r.alias == some al && statusOk r && r.user_id == current_user_id)).head? with
    | none => .ok none
    | some r => (row_to_token_info (selectColsFull r)).map some

/-- Log value as held by callers, from `app/model/db.rs` (`LogInfo`): the
joined credential is embedded as `token_info`. -/
structure LogInfo where
  id : Int
  timestamp : Int
  token_info : TokenInfo
  prompt : Option String
  model : String
  stream : Bool
  status : LogStatus
  error : Option String
deriving DecidableEq, Repr

/-- Embeds `Database::insert_log` (`app/db/logs.rs` lines 54-94):
prompt/model/error length validation before the transaction, then the
seven-column INSERT whose `timestamp` is `Local::now()` at execution time
(the `now` argument) and whose `token_id` is `log_info.token_info.id`. -/
def insert_log (st : Store) (now : Int) (li : LogInfo) : Store × Except DbError Int :=
  if (li.prompt.elim false (fun p => decide (p.length > MAX_PROMPT_LENGTH))) then
    (st, .error (.invalidParameterName "Prompt too long"))
  else if li.model.length > MAX_MODEL_LENGTH then
    (st, .error (.invalidParameterName "Model name too long"))
  else if (li.error.elim false (fun e => decide (e.length > MAX_ERROR_LENGTH))) then
    (st, .error (.invalidParameterName "Error message too long"))
  else
    let row : LogRow :=
      { id := st.nextLogId, timestamp := now, token_id := li.token_info.id,
        prompt := li.prompt, model := li.model, stream := li.stream,
        status := li.status, error := li.error }
    ({ st with logs := st.logs ++ [row], nextLogId := st.nextLogId + 1 },
     .ok st.nextLogId)

/-- Embeds `Database::update_log_status` (`app/db/logs.rs` lines 165-186):
error-length validation, then one transaction running
`UPDATE logs SET status = ?1, error = ?2 WHERE id = ?3`. -/
def update_log_status (st : Store) (id : Int) (status : LogStatus) (error : Option String) :
    Store × Except DbError Unit :=
  if (error.elim false (fun e => decide (e.length > MAX_ERROR_LENGTH))) then
    (st, .error (.invalidParameterName "Error message too long"))
  else
    ({ st with logs := st.logs.map (fun l =>
        if l.id = id then { l with status := status, error := error } else l) },
     .ok ())

/-- Embeds `Database::get_user_logs_count` (`app/db/logs.rs` lines
249-258): counts the user's joined log rows whose status is not
`Deleted`. -/
def get_user_logs_count (st : Store) (user_id : Int) : Int :=
  ((userLogs st user_id).filter (fun l => !(l.status == LogStatus.deleted))).length

/-- Message role as emitted by `handle_chat` (`Role::Assistant` is the only
role it ever writes into a response). -/
inductive Role
  | assistant
deriving DecidableEq, Repr

/-- Aggregated message of a non-streaming response (`Message` with
`MessageContent::Text`). -/
structure MessageOut where
  role : Role
  content : String
deriving DecidableEq, Repr

/-- Streaming delta of a chunk (`Delta` in `chat/model.rs`, constructed in
`handle_chat`). -/
structure Delta where
  role : Option Role
  content : Option String
deriving DecidableEq, Repr

/-- One choice of a response (`Choice`), as `handle_chat` constructs it. -/
structure Choice where
  index : Nat
  message : Option MessageOut
  delta : Option Delta
  finish_reason : Option String
deriving DecidableEq, Repr

/-- Token-count block of the non-streaming response; the counts are
character-length proxies. -/
structure Usage where
  prompt_tokens : Nat
  completion_tokens : Nat
  total_tokens : Nat
deriving DecidableEq, Repr

/-- Caller-facing response object (`ChatResponse`), as `handle_chat`
constructs it for both the aggregate and the chunk case. -/
structure ChatResponse where
  id : String
  object : String
  created : Int
  model : Option String
  choices : List Choice
  usage : Option Usage
deriving DecidableEq, Repr

/-- Wire-format object kind of an aggregate response
(`OBJECT_CHAT_COMPLETION` from `app/constant.rs`, the OpenAI value). -/
def OBJECT_CHAT_COMPLETION : String := "chat.completion"

/-- Wire-format object kind of a streamed chunk
(`OBJECT_CHAT_COMPLETION_CHUNK` from `app/constant.rs`, the OpenAI value). -/
def OBJECT_CHAT_COMPLETION_CHUNK : String := "chat.completion.chunk"

/-- Finish reason written on terminal chunks (`FINISH_REASON_STOP`). -/
def FINISH_REASON_STOP : String := "stop"

/-- Semantic events of the upstream stream (`StreamMessage` from
`chat/stream.rs`), with exactly the variants `handle_chat` consumes:
`Content(Vec<String>)`, `StreamStart`, `StreamEnd`, `Incomplete`,
`Debug(String)`. -/
inductive StreamMessage
  | content (texts : List String)
  | streamStart
  | streamEnd
  | incomplete
  | debug (prompt : String)
deriving DecidableEq, Repr

/-- Outcome of handling one upstream chunk inside `handle_chat`'s
consumption loops: a parsed `StreamMessage`, a structured upstream error
frame (`StreamError::ChatError`, carrying its HTTP status code and its
machine-readable code string), another parse error, or a failure to read
the chunk from the transport. -/
inductive ParseOutcome
  | msg (m : StreamMessage)
  | chatError (code : Nat) (native : String)
  | otherErr (e : String)
  | readErr (e : String)
deriving DecidableEq, Repr

/-- Reason the non-streaming consumption loop returned early (lines
472-480 and 501-507 of `chat/service.rs`). -/
inductive AbortKind
  | chatAbort (code : Nat) (native : String)
  | readAbort (e : String)
deriving DecidableEq, Repr

/-- Accumulator of the non-streaming loop: the running transcript and the
captured debug prompt. -/
structure LoopState where
  full_text : String
  prompt : Option String
deriving DecidableEq, Repr

/-- The non-streaming consumption loop of `handle_chat` (`chat/service.rs`
lines 470-513): `Content` texts are appended to the transcript, `Debug`
payloads captured as the prompt, `Incomplete` and other parse errors skip,
`StreamStart`/`StreamEnd` only clear the buffer; a `ChatError` frame or a
chunk read failure aborts the loop. -/
def nonStreamLoop : LoopState → List ParseOutcome → LoopState × Option AbortKind
  | s, [] => (s, none)
  | s, ev :: rest =>
    match ev with
    | .msg (.content texts) =>
      nonStreamLoop { s with full_text := s.full_text ++ String.join texts } rest
    | .msg .incomplete => nonStreamLoop s rest
    | .msg (.debug p) => nonStreamLoop { s with prompt := some p } rest
    | .msg .streamStart => nonStreamLoop s rest
    | .msg .streamEnd => nonStreamLoop s rest
    | .chatError code native => (s, some (.chatAbort code native))
    | .otherErr _ => nonStreamLoop s rest
    | .readErr e => (s, some (.readAbort e))

/-- Result returned to the caller by the non-streaming path. -/
inductive HttpOut
  | errResponse (status : Nat) (message : String)
  | jsonResponse (resp : ChatResponse)
deriving DecidableEq, Repr

/-- Finalization of the non-streaming path (`chat/service.rs` lines
515-576): a `ChatError` frame surfaces with its own status code, a read
failure as a 500; otherwise an empty accumulated transcript becomes the
500 "Empty response received" failure, and a non-empty one the aggregate
JSON response with character-length token counts. -/
def nonStreamResult (rid : String) (created : Int) (model : String)
    (evs : List ParseOutcome) : HttpOut :=
  match nonStreamLoop ⟨"", none⟩ evs with
  | (_, some (.chatAbort code native)) => .errResponse code native
  | (_, some (.readAbort e)) =>
    .errResponse 500 ("Failed to read response chunk: " ++ e)
  | (s, none) =>
    if s.full_text = "" then .errResponse 500 "Empty response received"
    else
      let pt : Nat := s.prompt.elim 0 (fun p => p.length)
      let ct : Nat := s.full_text.length
      .jsonResponse
        { id := rid, object := OBJECT_CHAT_COMPLETION, created := created,
          model := some model,
          choices := [ { index := 0,
                         message := some { role := .assistant, content := s.full_text },
                         delta := none,
                         finish_reason := some FINISH_REASON_STOP } ],
          usage := some { prompt_tokens := pt, completion_tokens := ct,
                          total_tokens := pt + ct } }

/-- Log-status writes performed by the non-streaming tail of `handle_chat`
after the upstream body has been consumed: aborts return without touching
the log, an empty transcript is marked `Failed`, a non-empty one needs no
further write (the `Success` write already happened at dispatch time). -/
def nonStreamLogUpdates (evs : List ParseOutcome) : List (LogStatus × Option String) :=
  match nonStreamLoop ⟨"", none⟩ evs with
  | (_, some _) => []
  | (s, none) =>
    if s.full_text = "" then [(.failed, some "Empty response received")] else []

/-- One outbound SSE item of the streaming path: a serialized chunk
(`data: {json}`) or the terminator line `data: [DONE]`. -/
inductive SseItem
  | chunk (r : ChatResponse)
  | done
deriving DecidableEq, Repr

/-- Rendering of one `Content` event's text list (`chat/service.rs` lines
340-377): each fragment becomes one delta chunk; the fragment seen while
`is_start` is set carries the model name and the assistant role and clears
the flag. Returns the updated flag with the emitted chunks. -/
def contentChunks (rid : String) (created : Int) (model : String) :
    Bool → List String → Bool × List SseItem
  | isStart, [] => (isStart, [])
  | isStart, t :: ts =>
    let c : ChatResponse :=
      { id := rid, object := OBJECT_CHAT_COMPLETION_CHUNK, created := created,
        model := if isStart then some model else none,
        choices := [ { index := 0, message := none,
                       delta := some { role := if isStart then some .assistant else none,
                                       content := some t },
                       finish_reason := none } ],
        usage := none }
    let next := contentChunks rid created model false ts
    (next.1, .chunk c :: next.2)

/-- Terminal finish-reason chunk optionally emitted before the `[DONE]`
sentinel (`chat/service.rs` lines 412-432). -/
def finishChunk (rid : String) (created : Int) : ChatResponse :=
  { id := rid, object := OBJECT_CHAT_COMPLETION_CHUNK, created := created,
    model := none,
    choices := [ { index := 0, message := none,
                   delta := some { role := none, content := none },
                   finish_reason := some FINISH_REASON_STOP } ],
    usage := none }

/-- Rendering of one parsed event in the streaming body (`chat/service.rs`
lines 339-453): `StreamStart` emits the role-establishing header chunk and
sets `is_start`; `Content` emits delta chunks; `StreamEnd` emits the
optional finish chunk followed by the `[DONE]` sentinel; `Incomplete`,
`Debug` and parse errors emit nothing. -/
def renderEvent (cfgStop : Bool) (rid : String) (created : Int) (model : String)
    (isStart : Bool) : ParseOutcome → Bool × List SseItem
  | .msg (.content texts) => contentChunks rid created model isStart texts
  | .msg .streamStart =>
    (true,
     [ .chunk { id := rid, object := OBJECT_CHAT_COMPLETION_CHUNK, created := created,
                model := some model,
                choices := [ { index := 0, message := none,
                               delta := some { role := some .assistant, content := some "" },
                               finish_reason := none } ],
                usage := none } ])
  | .msg .streamEnd =>
    if cfgStop then (isStart, [.chunk (finishChunk rid created), .done])
    else (isStart, [.done])
  | .msg .incomplete => (isStart, [])
  | .msg (.debug _) => (isStart, [])
  | .chatError _ _ => (isStart, [])
  | .otherErr _ => (isStart, [])
  | .readErr _ => (isStart, [])

/-- Streaming translation of a whole event sequence, threading the
`is_start` flag (initialized to `true` in `handle_chat`, line 251). -/
def renderStream (cfgStop : Bool) (rid : String) (created : Int) (model : String) :
    Bool → List ParseOutcome → List SseItem
  | _, [] => []
  | isStart, ev :: rest =>
    let step := renderEvent cfgStop rid created model isStart ev
    step.2 ++ renderStream cfgStop rid created model step.1 rest

/-- Result of the upstream dispatch in `handle_chat`: a transport failure,
or a response body whose chunks parse to the given outcome sequence. -/
inductive TransportResult
  | transportErr (e : String)
  | okStream (evs : List ParseOutcome)
deriving DecidableEq, Repr

/-- Sequence of `update_log_status` writes one `handle_chat` execution
performs on its log row (`chat/service.rs`): a transport failure writes
`Failed` once; a transport success immediately writes `Success` (line 219)
and is then followed by the streaming pre-flight check (which writes
`Failed` on an empty body or a structured first-frame error) or by the
non-streaming tail (which writes `Failed` on an empty transcript). -/
def handleChatLogUpdates (streamFlag streamCheck : Bool) :
    TransportResult → List (LogStatus × Option String)
  | .transportErr e => [(.failed, some e)]
  | .okStream evs =>
    (.success, none) ::
      (if streamFlag then
        (if streamCheck then
          match evs.head? with
          | none => [(.failed, some "Empty stream response")]
          | some (.chatError _ native) => [(.failed, some native)]
          | some _ => []
        else [])
      else nonStreamLogUpdates evs)

/-! Concrete stores used to evaluate the operations on explicit inputs. -/

/-- A credential of user 1, Active and past any grace window. -/
def exToken1 : TokenInfo :=
  { id := 1, create_at := 0, token := "tok-1", checksum := "ck", «alias» := none,
    status := .active, pengding_at := 0, user_id := 1, is_public := false, usage := none }

/-- A pending log row of credential 1 with the given id and timestamp. -/
def exLog (i ts : Int) : LogRow :=
  { id := i, timestamp := ts, token_id := 1, prompt := none, model := "gpt-4o",
    stream := false, status := .pending, error := none }

/-- Store with one credential of user 1 and three of its logs, with
timestamps 10 < 20 < 30. -/
def exStoreC1 : Store :=
  { tokens := [exToken1], logs := [exLog 1 10, exLog 2 20, exLog 3 30],
    nextTokenId := 2, nextLogId := 4 }

/-- C1: `clean_user_logs` on a user with three logs and `keep_n = 1`
retains (as non-Deleted) the single OLDEST log (id 1, timestamp 10) and
marks the two NEWEST (ids 2 and 3) as Deleted — the UPDATE's subquery
`ORDER BY timestamp ASC LIMIT -1 OFFSET keep_n` skips the `keep_n` oldest
rows, the opposite of the ranking query (`ORDER BY timestamp DESC`,
`rn > keep_n`) the same function uses to pick the ids to delete, and the
opposite of the claimed retention of the `keep_n` most recent rows. -/
theorem clean_user_logs_retains_oldest_not_newest :
    ((clean_user_logs exStoreC1 1 1).logs.filter
        (fun l => !(l.status == LogStatus.deleted))).map (fun l => l.id) = [1]
    ∧ ((clean_user_logs exStoreC1 1 1).logs.filter
        (fun l => l.status == LogStatus.deleted)).map (fun l => l.id) = [2, 3] := by
  decide

/-- Store with no rows. -/
def emptyStore : Store := { tokens := [], logs := [], nextTokenId := 1, nextLogId := 1 }

/-- A fresh, well-formed credential for user 1 (all fields within the
length ceilings). -/
def exTokenNew : TokenInfo :=
  { id := 0, create_at := 0, token := "sk-test", checksum := "cks", «alias» := none,
    status := .active, pengding_at := 0, user_id := 1, is_public := false, usage := none }

/-- C2: for every credential within the length ceilings, `insert_token`
fails with rusqlite's parameter-count error — its INSERT statement lists
nine placeholders (`create_at` through `usage`) but its `params!` list
binds only eight values (`pengding_at` is missing) — leaving the store
unchanged, so the insert-then-fetch round trip never succeeds. -/
theorem insert_token_roundtrip_impossible (st : Store) (now : Int) (t : TokenInfo)
    (htok : t.token.length ≤ MAX_TOKEN_LENGTH)
    (hck : t.checksum.length ≤ MAX_CHECKSUM_LENGTH)
    (hal : aliasTooLong t.alias = false) :
    insert_token st now t = (st, .error (.invalidParameterCount 8 9)) := by
  unfold insert_token
  rw [if_neg (by omega), if_neg (by omega), if_neg (by simp [hal])]
  rfl

/-- Evaluation of `insert_token_roundtrip_impossible` on a concrete valid
credential and the empty store. -/
theorem insert_token_roundtrip_impossible_witness :
    insert_token emptyStore 0 exTokenNew
      = (emptyStore, .error (.invalidParameterCount 8 9)) :=
  insert_token_roundtrip_impossible emptyStore 0 exTokenNew
    (by decide) (by decide) (by decide)

/-- Case analysis of the non-streaming tail's status writes: either none,
or the single `Failed` write of the empty-transcript check. -/
theorem nonStreamLogUpdates_cases (evs : List ParseOutcome) :
    nonStreamLogUpdates evs = []
    ∨ nonStreamLogUpdates evs
        = [(LogStatus.failed, some "Empty response received")] := by
  unfold nonStreamLogUpdates
  rcases h : nonStreamLoop ⟨"", none⟩ evs with ⟨s, ab⟩
  cases ab with
  | none => by_cases he : s.full_text = "" <;> simp [he]
  | some a => simp

/-- C3 counterexample: the non-streaming execution whose upstream stream
completes with an empty transcript writes the same log row's status twice:
`Success` at dispatch time (line 219 of `chat/service.rs`), then `Failed`
at the empty-response check (line 522). -/
theorem log_status_written_twice :
    handleChatLogUpdates false false
        (.okStream [.msg .streamStart, .msg .streamEnd])
      = [(LogStatus.success, none),
         (LogStatus.failed, some "Empty response received")]
    ∧ ¬ (handleChatLogUpdates false false
        (.okStream [.msg .streamStart, .msg .streamEnd])).length ≤ 1 := by
  decide

/-- C3 amended: a `handle_chat` execution writes its log row's status at
most twice; a transport failure produces the single `Failed` write, a
transport success writes `Success` first, and when a second write happens
it is always the demotion of that `Success` to `Failed`; every write is
`Success` or `Failed` (never back to `Pending`). -/
theorem log_status_updates_at_most_two (streamFlag streamCheck : Bool)
    (tr : TransportResult) :
    (handleChatLogUpdates streamFlag streamCheck tr).length ≤ 2
    ∧ (∀ a b, handleChatLogUpdates streamFlag streamCheck tr = [a, b] →
        a = (LogStatus.success, none) ∧ b.1 = LogStatus.failed)
    ∧ (∀ u ∈ handleChatLogUpdates streamFlag streamCheck tr,
        u.1 = LogStatus.success ∨ u.1 = LogStatus.failed) := by
  cases tr with
  | transportErr e => simp [handleChatLogUpdates]
  | okStream evs =>
    cases streamFlag with
    | false =>
      rcases nonStreamLogUpdates_cases evs with h | h <;>
        simp [handleChatLogUpdates, h]
    | true =>
      cases streamCheck with
      | false => simp [handleChatLogUpdates]
      | true =>
        cases hh : evs.head? with
        | none => simp [handleChatLogUpdates, hh]
        | some ev => cases ev <;> simp [handleChatLogUpdates, hh]

/-- Instantiation of `log_status_updates_at_most_two` at the concrete
empty-transcript execution, discharging its two-write hypothesis there. -/
theorem log_status_updates_at_most_two_witness :
    (LogStatus.success, (none : Option String)) = (LogStatus.success, none)
    ∧ (LogStatus.failed, some "Empty response received").1 = LogStatus.failed :=
  (log_status_updates_at_most_two false false
      (.okStream [.msg .streamStart, .msg .streamEnd])).2.1
    (LogStatus.success, none) (LogStatus.failed, some "Empty response received")
    (by decide)

/-- Store with the single Active, grace-elapsed credential `exToken1`. -/
def exStoreC4 : Store :=
  { tokens := [exToken1], logs := [], nextTokenId := 2, nextLogId := 1 }

/-- C4 counterexample: marking credential 1 Pending at time 100 sets its
`pengding_at` to 160 (one minute ahead), not to the selection time 100;
the credential was eligible at time 100 before the write, and at time 200
— after the one-minute grace window has elapsed — it is still excluded
from the eligible set, because the query requires status Active while the
row's status is Pending. -/
theorem token_pending_grace_counterexample :
    ((update_token_status exStoreC4 1 TokenStatus.pending 100).tokens.map
        (fun r => (r.status, r.pengding_at))) = [(TokenStatus.pending, 160)]
    ∧ get_available_tokens_by_user_id exStoreC4 (some 1) 100 = [exToken1]
    ∧ get_available_tokens_by_user_id
        (update_token_status exStoreC4 1 TokenStatus.pending 100) (some 1) 200 = [] := by
  decide

/-- C4 amended: the chosen credential is transitioned to status Pending
with `pengding_at = now + 60` (the grace window baked into the timestamp),
and the eligibility query (status = Active and now ≥ `pengding_at`) then
excludes it at every later query time — throughout and beyond the grace
window — for as long as its status remains Pending. -/
theorem update_token_status_pending_excludes (st : Store) (id now : Int) :
    (∀ r ∈ (update_token_status st id TokenStatus.pending now).tokens,
        r.id = id → r.status = TokenStatus.pending ∧ r.pengding_at = now + 60)
    ∧ (∀ uid t r, r ∈ get_available_tokens_by_user_id
          (update_token_status st id TokenStatus.pending now) uid t → r.id ≠ id) := by
  have htok : ∀ l : List TokenInfo,
      (l.map (fun r => if r.id = id then { r with status := TokenStatus.pending } else r)).map
          (fun r => if r.id = id then { r with pengding_at := now + 60 } else r)
        = l.map (fun r => if r.id = id then
            { r with status := TokenStatus.pending, pengding_at := now + 60 } else r) := by
    intro l
    induction l with
    | nil => rfl
    | cons x xs ih =>
      simp only [List.map_cons, ih]
      by_cases hx : x.id = id
      · simp [hx]
      · simp [hx]
  have hchar : (update_token_status st id TokenStatus.pending now).tokens
      = st.tokens.map (fun r => if r.id = id then
          { r with status := TokenStatus.pending, pengding_at := now + 60 } else r) := by
    show (st.tokens.map (fun r =>
        if r.id = id then { r with status := TokenStatus.pending } else r)).map
          (fun r => if r.id = id then { r with pengding_at := now + 60 } else r) = _
    exact htok st.tokens
  have h1 : ∀ r ∈ (update_token_status st id TokenStatus.pending now).tokens,
      r.id = id → r.status = TokenStatus.pending ∧ r.pengding_at = now + 60 := by
    intro r hr hrid
    rw [hchar] at hr
    obtain ⟨r0, hr0, heq⟩ := List.mem_map.mp hr
    by_cases hx : r0.id = id
    · rw [if_pos hx] at heq
      cases heq
      exact ⟨rfl, rfl⟩
    · rw [if_neg hx] at heq
      cases heq
      exact absurd hrid hx
  refine ⟨h1, ?_⟩
  intro uid t r hr hrid
  simp only [get_available_tokens_by_user_id] at hr
  have h2 := List.mem_filter.mp (List.take_subset _ _ hr)
  have hact : r.status = TokenStatus.active := by
    have hp := h2.2
    simp only [Bool.and_eq_true, beq_iff_eq] at hp
    exact hp.1.1
  rw [(h1 r h2.1 hrid).1] at hact
  exact absurd hact (by decide)

/-- Instantiation of `update_token_status_pending_excludes` at the
concrete store, discharging the membership and id hypotheses there. -/
theorem update_token_status_pending_excludes_witness :
    ({ exToken1 with status := TokenStatus.pending, pengding_at := 160 } : TokenInfo).status
        = TokenStatus.pending
    ∧ ({ exToken1 with status := TokenStatus.pending, pengding_at := 160 } : TokenInfo).pengding_at
        = 100 + 60 :=
  (update_token_status_pending_excludes exStoreC4 1 100).1
    { exToken1 with status := TokenStatus.pending, pengding_at := 160 }
    (by decide) (by decide)

/-- Credential of user 1 carrying the alias `work`. -/
def exTokenAliased : TokenInfo :=
  { id := 1, create_at := 5, token := "tk-alias", checksum := "c1", «alias» := some "work",
    status := .active, pengding_at := 7, user_id := 1, is_public := false, usage := none }

/-- Store with the single aliased credential of user 1. -/
def exStoreC5 : Store :=
  { tokens := [exTokenAliased], logs := [], nextTokenId := 2, nextLogId := 1 }

/-- C5: the administrator alias lookup scoped to a target owner errors
instead of returning the credential — its SELECT lists nine columns
(`pengding_at` is missing) while the shared row mapper reads ten, so
column 6 holds the integer `user_id` where the mapper expects the
`pengding_at` datetime — whereas the unscoped administrator lookup and
the owner's own lookup of the same credential both succeed. -/
theorem alias_admin_scoped_lookup_fails :
    get_token_by_alias_and_user exStoreC5 "work" 0 (some 1)
      = .error (.invalidColumnType 6)
    ∧ get_token_by_alias_and_user exStoreC5 "work" 0 none = .ok (some exTokenAliased)
    ∧ get_token_by_alias_and_user exStoreC5 "work" 1 none = .ok (some exTokenAliased) := by
  refine ⟨?_, ?_, ?_⟩ <;> rfl

/-- Modelled from the spec: the deletion predicate of `reclaim_expired()`
(spec §4.1) — a credential is reclaimable when its status is Expired, or
when it is Active with a positive duration whose computed expiry instant
`created_at + duration_seconds` is not after now. Stated only for
comparison with `delete_expired_tokens`. -/
def specReclaimable (now durationSeconds : Int) (t : TokenInfo) : Bool :=
  t.status == TokenStatus.expired ||
    (t.status == TokenStatus.active && decide (0 < durationSeconds)
      && decide (t.create_at + durationSeconds ≤ now))

/-- Expired credential of user 1. -/
def exTokenExpired : TokenInfo :=
  { id := 2, create_at := 0, token := "tok-exp", checksum := "ck2", «alias» := none,
    status := .expired, pengding_at := 0, user_id := 1, is_public := false, usage := none }

/-- A finished log row of the credential with id `tid`. -/
def exLogOfToken (i tid : Int) : LogRow :=
  { id := i, timestamp := i, token_id := tid, prompt := none, model := "gpt-4o",
    stream := false, status := .success, error := none }

/-- Store with the Active credential 1 (created at time 0) and the Expired
credential 2, one log each. -/
def exStoreC6 : Store :=
  { tokens := [exToken1, exTokenExpired],
    logs := [exLogOfToken 1 1, exLogOfToken 2 2],
    nextTokenId := 3, nextLogId := 3 }

/-- C6 counterexample: at time 1000000 with a one-hour duration,
credential 1 is Active and past its computed expiry instant, so the claim
requires its log and the credential itself to be deleted; the code's
reclamation deletes only the rows of the Expired credential 2 and keeps
credential 1 together with its log. -/
theorem delete_expired_keeps_active_past_expiry :
    specReclaimable 1000000 3600 exToken1 = true
    ∧ (delete_expired_tokens exStoreC6).tokens = [exToken1]
    ∧ (delete_expired_tokens exStoreC6).logs = [exLogOfToken 1 1] := by
  decide

/-- C6 amended: in one transaction `delete_expired_tokens` deletes exactly
the logs whose credential has status Expired and then exactly the Expired
credentials; every credential of any other status — in particular every
Active credential, regardless of any computed expiry — and its logs are
kept, and nothing else is part of the operation. -/
theorem delete_expired_tokens_exact (st : Store) :
    (∀ t ∈ st.tokens,
        (t ∈ (delete_expired_tokens st).tokens ↔ t.status ≠ TokenStatus.expired))
    ∧ (∀ t ∈ (delete_expired_tokens st).tokens, t ∈ st.tokens)
    ∧ (∀ l ∈ st.logs,
        (l ∈ (delete_expired_tokens st).logs ↔
          ¬ ∃ t ∈ st.tokens, t.id = l.token_id ∧ t.status = TokenStatus.expired))
    ∧ (∀ l ∈ (delete_expired_tokens st).logs, l ∈ st.logs) := by
  refine ⟨?_, ?_, ?_, ?_⟩
  · intro t ht
    simp [delete_expired_tokens, List.mem_filter, ht, beq_iff_eq]
  · intro t ht
    exact (List.mem_filter.mp ht).1
  · intro l hl
    simp only [delete_expired_tokens, List.mem_filter, hl, true_and,
      Bool.not_eq_true', decide_eq_false_iff_not, List.mem_map, List.mem_filter,
      beq_iff_eq]
    constructor
    · intro hno hex
      obtain ⟨t, htmem, hid, hstat⟩ := hex
      exact hno ⟨t, ⟨htmem, hstat⟩, hid⟩
    · intro hno hex
      obtain ⟨t, ⟨htmem, hstat⟩, hid⟩ := hex
      exact hno ⟨t, htmem, hid, hstat⟩
  · intro l hl
    exact (List.mem_filter.mp hl).1

/-- Instantiation of `delete_expired_tokens_exact` at the concrete store,
discharging the membership hypothesis there. -/
theorem delete_expired_tokens_exact_witness :
    exToken1 ∈ (delete_expired_tokens exStoreC6).tokens
      ↔ exToken1.status ≠ TokenStatus.expired :=
  (delete_expired_tokens_exact exStoreC6).1 exToken1 (by decide)

/-- C7: a non-streaming request whose upstream stream completes normally
(no structured error frame, no read failure) having produced an empty
accumulated transcript is finalized as Failed with the
"Empty response received" error — the last status write of the execution —
and the caller receives the 500 error response, never a JSON success
response. -/
theorem empty_nonstream_response_fails (rid : String) (created : Int) (model : String)
    (streamCheck : Bool) (evs : List ParseOutcome)
    (hdone : (nonStreamLoop ⟨"", none⟩ evs).2 = none)
    (hempty : (nonStreamLoop ⟨"", none⟩ evs).1.full_text = "") :
    nonStreamResult rid created model evs = .errResponse 500 "Empty response received"
    ∧ (handleChatLogUpdates false streamCheck (.okStream evs)).getLast?
        = some (LogStatus.failed, some "Empty response received")
    ∧ ∀ resp, nonStreamResult rid created model evs ≠ .jsonResponse resp := by
  rcases hl : nonStreamLoop ⟨"", none⟩ evs with ⟨s, ab⟩
  rw [hl] at hdone hempty
  simp only at hdone hempty
  subst hdone
  refine ⟨?_, ?_, ?_⟩
  · simp [nonStreamResult, hl, hempty]
  · simp [handleChatLogUpdates, nonStreamLogUpdates, hl, hempty]
  · intro resp
    simp [nonStreamResult, hl, hempty]

/-- Instantiation of `empty_nonstream_response_fails` at a concrete
two-event stream with no content, discharging both hypotheses there. -/
theorem empty_nonstream_response_fails_witness :
    nonStreamResult "chatcmpl-w" 0 "gpt-4o" [.msg .streamStart, .msg .streamEnd]
      = .errResponse 500 "Empty response received" :=
  (empty_nonstream_response_fails "chatcmpl-w" 0 "gpt-4o" false
      [.msg .streamStart, .msg .streamEnd] rfl rfl).1

/-- C8: in streaming mode the event sequence StreamStart, Content, Content,
StreamEnd renders to exactly the role-establishing header chunk (assistant
role, empty content), two delta chunks — the first carrying the model name
and the assistant role, the second carrying neither — and the terminator
(the optional finish-reason chunk followed by the `[DONE]` sentinel, or
the sentinel alone), whose last item is always the `[DONE]` sentinel. -/
theorem stream_render_start_two_contents_end (cfgStop : Bool) (rid : String)
    (created : Int) (model : String) (t1 t2 : String) :
    renderStream cfgStop rid created model true
        [.msg .streamStart, .msg (.content [t1]), .msg (.content [t2]), .msg .streamEnd]
      = [SseItem.chunk
           { id := rid, object := OBJECT_CHAT_COMPLETION_CHUNK, created := created,
             model := some model,
             choices := [ { index := 0, message := none,
                            delta := some { role := some .assistant, content := some "" },
                            finish_reason := none } ],
             usage := none },
         SseItem.chunk
           { id := rid, object := OBJECT_CHAT_COMPLETION_CHUNK, created := created,
             model := some model,
             choices := [ { index := 0, message := none,
                            delta := some { role := some .assistant, content := some t1 },
                            finish_reason := none } ],
             usage := none },
         SseItem.chunk
           { id := rid, object := OBJECT_CHAT_COMPLETION_CHUNK, created := created,
             model := none,
             choices := [ { index := 0, message := none,
                            delta := some { role := none, content := some t2 },
                            finish_reason := none } ],
             usage := none } ]
        ++ (if cfgStop then [SseItem.chunk (finishChunk rid created), SseItem.done]
            else [SseItem.done])
    ∧ (renderStream cfgStop rid created model true
        [.msg .streamStart, .msg (.content [t1]), .msg (.content [t2]),
         .msg .streamEnd]).getLast? = some SseItem.done := by
  cases cfgStop <;> exact ⟨rfl, rfl⟩

/-- C9: each over-ceiling field makes `insert_log` / `insert_token` return
a validation error with the store untouched, before any transaction; and
inputs within every ceiling are never rejected by the length checks —
`insert_log` proceeds to insert, and `insert_token` is never rejected with
a length-validation error (its failure is the later parameter-count error
at binding time, not a length rejection). -/
theorem length_ceilings_enforced (st : Store) (now : Int) (li : LogInfo) (t : TokenInfo) :
    ((∃ p, li.prompt = some p ∧ p.length > MAX_PROMPT_LENGTH) →
        ∃ m, insert_log st now li = (st, .error (.invalidParameterName m)))
    ∧ ((∃ e, li.error = some e ∧ e.length > MAX_ERROR_LENGTH) →
        ∃ m, insert_log st now li = (st, .error (.invalidParameterName m)))
    ∧ (t.token.length > MAX_TOKEN_LENGTH →
        insert_token st now t = (st, .error (.invalidParameterName "Token too long")))
    ∧ ((∃ a, t.alias = some a ∧ a.length > MAX_ALIAS_LENGTH) →
        ∃ m, insert_token st now t = (st, .error (.invalidParameterName m)))
    ∧ ((li.prompt.elim True fun p => p.length ≤ MAX_PROMPT_LENGTH) →
        li.model.length ≤ MAX_MODEL_LENGTH →
        (li.error.elim True fun e => e.length ≤ MAX_ERROR_LENGTH) →
        (insert_log st now li).2 = .ok st.nextLogId)
    ∧ (t.token.length ≤ MAX_TOKEN_LENGTH → t.checksum.length ≤ MAX_CHECKSUM_LENGTH →
        aliasTooLong t.alias = false →
        ∀ m, (insert_token st now t).2 ≠ .error (.invalidParameterName m)) := by
  refine ⟨?_, ?_, ?_, ?_, ?_, ?_⟩
  · rintro ⟨p, hp, hlen⟩
    refine ⟨"Prompt too long", ?_⟩
    unfold insert_log
    rw [if_pos (by rw [hp]; simpa using hlen)]
  · rintro ⟨e, he, hlen⟩
    unfold insert_log
    by_cases h1 : (li.prompt.elim false fun p => decide (p.length > MAX_PROMPT_LENGTH)) = true
    · exact ⟨"Prompt too long", by rw [if_pos h1]⟩
    · rw [if_neg h1]
      by_cases h2 : li.model.length > MAX_MODEL_LENGTH
      · exact ⟨"Model name too long", by rw [if_pos h2]⟩
      · rw [if_neg h2]
        exact ⟨"Error message too long",
          by rw [if_pos (by rw [he]; simpa using hlen)]⟩
  · intro hlen
    unfold insert_token
    rw [if_pos hlen]
  · rintro ⟨a, ha, hlen⟩
    unfold insert_token
    by_cases h1 : t.token.length > MAX_TOKEN_LENGTH
    · exact ⟨"Token too long", by rw [if_pos h1]⟩
    · rw [if_neg h1]
      by_cases h2 : t.checksum.length > MAX_CHECKSUM_LENGTH
      · exact ⟨"Checksum too long", by rw [if_pos h2]⟩
      · rw [if_neg h2]
        exact ⟨"Alias too long",
          by rw [if_pos (by rw [ha]; simp [aliasTooLong]; simpa using hlen)]⟩
  · intro hp hm he
    have h1 : (li.prompt.elim false fun p => decide (p.length > MAX_PROMPT_LENGTH)) = false := by
      cases hq : li.prompt with
      | none => rfl
      | some p =>
        rw [hq] at hp
        simp only [Option.elim] at hp ⊢
        simpa using hp
    have h3 : (li.error.elim false fun e => decide (e.length > MAX_ERROR_LENGTH)) = false := by
      cases hq : li.error with
      | none => rfl
      | some e =>
        rw [hq] at he
        simp only [Option.elim] at he ⊢
        simpa using he
    unfold insert_log
    rw [if_neg (by simp [h1]), if_neg (by omega), if_neg (by simp [h3])]
  · intro htok hck hal m
    unfold insert_token
    rw [if_neg (by omega), if_neg (by omega), if_neg (by simp [hal])]
    simp [insertTokenParams, insertTokenColumns]

/-- A credential whose secret exceeds the 1000-character ceiling. -/
def longSecretToken : TokenInfo :=
  { exTokenNew with token := String.mk (List.replicate 1001 't') }

/-- A credential whose alias exceeds the 100-character ceiling. -/
def badAliasToken : TokenInfo :=
  { exTokenNew with «alias» := some (String.mk (List.replicate 101 'a')) }

/-- A log value with every field within the ceilings. -/
def goodLi : LogInfo :=
  { id := 0, timestamp := 0, token_info := exToken1, prompt := none,
    model := "gpt-4o", stream := false, status := .pending, error := none }

/-- A log value whose prompt exceeds the 100000-character ceiling. -/
def badPromptLi : LogInfo :=
  { goodLi with prompt := some (String.mk (List.replicate 100001 'p')) }

/-- A log value whose error string exceeds the 1000-character ceiling. -/
def badErrorLi : LogInfo :=
  { goodLi with error := some (String.mk (List.replicate 1001 'e')) }

/-- Instantiation of `length_ceilings_enforced` at concrete over-ceiling
and within-ceiling inputs, discharging every hypothesis there. -/
theorem length_ceilings_enforced_witness :
    (∃ m, insert_log emptyStore 0 badPromptLi
        = (emptyStore, .error (.invalidParameterName m)))
    ∧ (∃ m, insert_log emptyStore 0 badErrorLi
        = (emptyStore, .error (.invalidParameterName m)))
    ∧ insert_token emptyStore 0 longSecretToken
        = (emptyStore, .error (.invalidParameterName "Token too long"))
    ∧ (∃ m, insert_token emptyStore 0 badAliasToken
        = (emptyStore, .error (.invalidParameterName m)))
    ∧ (insert_log emptyStore 0 goodLi).2 = .ok emptyStore.nextLogId
    ∧ (insert_token emptyStore 0 exTokenNew).2
        ≠ .error (.invalidParameterName "Token too long") :=
  ⟨(length_ceilings_enforced emptyStore 0 badPromptLi exTokenNew).1
      ⟨_, rfl, by show (List.replicate 100001 'p').length > MAX_PROMPT_LENGTH
                  rw [List.length_replicate]; decide⟩,
   (length_ceilings_enforced emptyStore 0 badErrorLi exTokenNew).2.1
      ⟨_, rfl, by show (List.replicate 1001 'e').length > MAX_ERROR_LENGTH
                  rw [List.length_replicate]; decide⟩,
   (length_ceilings_enforced emptyStore 0 goodLi longSecretToken).2.2.1
      (by show (List.replicate 1001 't').length > MAX_TOKEN_LENGTH
          rw [List.length_replicate]; decide),
   (length_ceilings_enforced emptyStore 0 goodLi badAliasToken).2.2.2.1
      ⟨_, rfl, by show (List.replicate 101 'a').length > MAX_ALIAS_LENGTH
                  rw [List.length_replicate]; decide⟩,
   (length_ceilings_enforced emptyStore 0 goodLi exTokenNew).2.2.2.2.1
      trivial (by decide) trivial,
   (length_ceilings_enforced emptyStore 0 goodLi exTokenNew).2.2.2.2.2
      (by decide) (by decide) (by decide) "Token too long"⟩

/-- C10: `update_token` (within the checksum/alias ceilings) succeeds,
touches no log row and no counter, and rewrites only the checksum, alias
and is_public fields of the rows whose id matches, leaving every other
field of those rows and every other row entirely unchanged. -/
theorem update_token_frame (st : Store) (t : TokenInfo)
    (hck : t.checksum.length ≤ MAX_CHECKSUM_LENGTH)
    (hal : aliasTooLong t.alias = false) :
    (update_token st t).2 = .ok ()
    ∧ (update_token st t).1.logs = st.logs
    ∧ (update_token st t).1.nextTokenId = st.nextTokenId
    ∧ (update_token st t).1.nextLogId = st.nextLogId
    ∧ List.Forall₂ (fun (r r' : TokenInfo) =>
        r'.id = r.id ∧ r'.token = r.token ∧ r'.status = r.status
        ∧ r'.pengding_at = r.pengding_at ∧ r'.create_at = r.create_at
        ∧ r'.user_id = r.user_id ∧ r'.usage = r.usage
        ∧ (r.id = t.id →
            r'.checksum = t.checksum ∧ r'.alias = t.alias ∧ r'.is_public = t.is_public)
        ∧ (r.id ≠ t.id → r' = r))
      st.tokens (update_token st t).1.tokens := by
  have hupd : update_token st t
      = ({ st with tokens := st.tokens.map (fun r =>
            if r.id = t.id then
              { r with checksum := t.checksum, «alias» := t.alias, is_public := t.is_public }
            else r) }, .ok ()) := by
    unfold update_token
    rw [if_neg (by omega), if_neg (by simp [hal])]
  rw [hupd]
  refine ⟨rfl, rfl, rfl, rfl, ?_⟩
  show List.Forall₂ _ st.tokens (st.tokens.map (fun r =>
    if r.id = t.id then
      { r with checksum := t.checksum, «alias» := t.alias, is_public := t.is_public }
    else r))
  induction st.tokens with
  | nil => exact List.Forall₂.nil
  | cons x xs ih =>
    rw [List.map_cons]
    refine List.Forall₂.cons ?_ ih
    by_cases hx : x.id = t.id
    · rw [if_pos hx]
      exact ⟨rfl, rfl, rfl, rfl, rfl, rfl, rfl,
        fun _ => ⟨rfl, rfl, rfl⟩, fun hne => absurd hx hne⟩
    · rw [if_neg hx]
      exact ⟨rfl, rfl, rfl, rfl, rfl, rfl, rfl,
        fun h => absurd h hx, fun _ => rfl⟩

/-- Store with two credentials and one log, the target of the concrete
`update_token` instantiation. -/
def exStoreC10 : Store :=
  { tokens := [exToken1, exTokenExpired], logs := [exLog 1 10],
    nextTokenId := 3, nextLogId := 2 }

/-- Update value rewriting checksum, alias and is_public of credential 1. -/
def exUpdate : TokenInfo :=
  { exToken1 with checksum := "ck-new", «alias» := some "prod", is_public := true }

/-- Instantiation of `update_token_frame` at the concrete store,
discharging both length hypotheses there. -/
theorem update_token_frame_witness :
    (update_token exStoreC10 exUpdate).2 = .ok ()
    ∧ (update_token exStoreC10 exUpdate).1.logs = exStoreC10.logs :=
  ⟨(update_token_frame exStoreC10 exUpdate (by decide) (by decide)).1,
   (update_token_frame exStoreC10 exUpdate (by decide) (by decide)).2.1⟩

end CursorApi
